import Mathlib

/-!
Verification of the contentQC_Score scoring pipeline (`src/app.py`).

The program fetches an article from a URL (`get_article`), optionally runs a
language-model-based generation detector, and scores the article text with
`evaluate_article_quality`.  The scorer is a pure arithmetic function of the
article text, a boolean generation flag, a keyword list, and the outputs of
three third-party libraries that we treat as oracles supplied as parameters:

* `polarity`   — `TextBlob(article).sentiment.polarity` (a rational);
* `words`      — `TextBlob(article).words` (the tokenised word list);
* `known`      — membership in the `pyspellchecker` dictionary (a predicate on
                 lowercased words; `SpellChecker().unknown` keeps the words
                 whose lowercase form is not known).

Python floats are modelled by `ℚ`; Python's `round` (banker's rounding,
round-half-to-even) is modelled by `pyRound`; Python's `ZeroDivisionError`
paths are modelled by returning `none`.  Python's `str.lower` is modelled by
per-character lowercasing (`lowerStr`), which is faithful on ASCII text.
-/

namespace ContentQC

/-- Round-half-to-even on rationals, the behaviour of Python's builtin
`round` on an exact value (ties go to the even integer). -/
def roundHalfEven (q : ℚ) : ℤ :=
  if q - ⌊q⌋ < 1/2 then ⌊q⌋
  else if q - ⌊q⌋ > 1/2 then ⌊q⌋ + 1
  else if ⌊q⌋ % 2 = 0 then ⌊q⌋ else ⌊q⌋ + 1

/-- Python's `round(q, ndigits)` on an exact rational value. -/
def pyRound (q : ℚ) (ndigits : ℕ) : ℚ :=
  (roundHalfEven (q * 10 ^ ndigits) : ℚ) / 10 ^ ndigits

/-- Python's `str.lower`, modelled as per-character lowercasing over the
character list of the string (faithful on ASCII text). -/
def lowerStr (s : String) : String :=
  String.mk (s.data.map Char.toLower)

/-- Python's `needle in haystack` substring test on strings, over explicit
character lists. -/
def isSubstrList (needle : List Char) : List Char → Bool
  | [] => needle.isEmpty
  | c :: cs => needle.isPrefixOf (c :: cs) || isSubstrList needle cs

/-- `needle` occurs contiguously inside `hay`. -/
def IsSubstr (needle hay : List Char) : Prop :=
  ∃ pre post, hay = pre ++ needle ++ post

/-- The membership test of `src/app.py` line 110:
`keyword.lower() in article.lower()`. -/
def keyword_occurs (article kw : String) : Bool :=
  isSubstrList (lowerStr kw).data (lowerStr article).data

/-- `SpellChecker().unknown(words)` (`src/app.py` line 104): the set of
lowercased words that the dictionary does not know, as a deduplicated list. -/
def unknownWords (known : String → Bool) (words : List String) : List String :=
  ((words.map lowerStr).filter fun w => !known w).dedup

/-- Vocabulary sub-score (`src/app.py` lines 97–100, spec §4.3 table):
`unique_word_count / total_word_count`. -/
def vocabulary_score (words : List String) : ℚ :=
  (words.dedup.length : ℚ) / (words.length : ℚ)

/-- Spelling-error sub-score (`src/app.py` lines 103–106, spec §4.3 table):
`1 - misspelled_count / total_word_count`. -/
def spelling_error_score (known : String → Bool) (words : List String) : ℚ :=
  1 - ((unknownWords known words).length : ℚ) / (words.length : ℚ)

/-- Relevance sub-score (`src/app.py` line 110, spec §4.3 table): the
fraction of keywords whose lowercase form is a substring of the lowercased
article. -/
def relevance_score (article : String) (kws : List String) : ℚ :=
  (kws.countP (keyword_occurs article) : ℚ) / (kws.length : ℚ)

/-- Effort sub-score (`src/app.py` line 113, spec §4.3 table):
`1.0 if not is_written_by_chatgpt else 0.0`. -/
def effort_score (is_written_by_chatgpt : Bool) : ℚ :=
  if is_written_by_chatgpt then 0 else 1

/-- The composite quality score (`src/app.py` lines 116–118, spec §4.3):
`0.4*Readability + 0.1*Vocabulary + 0.3*Relevance + 0.1*Effort +
0.1*SpellingError`. -/
def quality_score (known : String → Bool) (polarity : ℚ) (words : List String)
    (article : String) (gen : Bool) (kws : List String) : ℚ :=
  0.4 * polarity + 0.1 * vocabulary_score words + 0.3 * relevance_score article kws
    + 0.1 * effort_score gen + 0.1 * spelling_error_score known words

/-- The five contribution percentages of `src/app.py` lines 124–130. -/
structure Contributions where
  readability : ℚ
  vocabularyRichness : ℚ
  relevance : ℚ
  generatedByChatGPT : ℚ
  spellingError : ℚ
deriving DecidableEq

/-- `evaluate_article_quality` (`src/app.py` lines 92–132), line by line.
`polarity` and `words` stand for the TextBlob outputs on `article`, `known`
for the spellchecker dictionary.  The three Python `ZeroDivisionError`
sites (empty word list at line 100, empty keyword list at line 110, zero
composite score at lines 125–129) are modelled by `none`. -/
def evaluate_article_quality (known : String → Bool) (polarity : ℚ)
    (words : List String) (article : String) (is_written_by_chatgpt : Bool)
    (relevant_keywords_list : List String) : Option (ℚ × Contributions) :=
  let readability_score := polarity
  let unique_words_count := words.dedup.length
  let total_words_count := words.length
  if total_words_count = 0 then none else
  let vocabulary_score : ℚ := (unique_words_count : ℚ) / (total_words_count : ℚ)
  let misspelled_words := unknownWords known words
  let spelling_error_count := misspelled_words.length
  let spelling_error_score : ℚ := 1 - ((spelling_error_count : ℚ) / (total_words_count : ℚ))
  if relevant_keywords_list.length = 0 then none else
  let relevance_score : ℚ :=
    (relevant_keywords_list.countP (keyword_occurs article) : ℚ)
      / (relevant_keywords_list.length : ℚ)
  let effort_score : ℚ := if is_written_by_chatgpt then 0 else 1
  let quality_score : ℚ :=
    0.4 * readability_score + 0.1 * vocabulary_score + 0.3 * relevance_score
      + 0.1 * effort_score + 0.1 * spelling_error_score
  let score_percentage := pyRound ((quality_score + 1) * 50) 0
  if quality_score = 0 then none else
  some (score_percentage,
    { readability := pyRound (0.4 * readability_score / quality_score * 100) 2
      vocabularyRichness := pyRound (0.1 * vocabulary_score / quality_score * 100) 2
      relevance := pyRound (0.3 * relevance_score / quality_score * 100) 2
      generatedByChatGPT := pyRound (0.1 * effort_score / quality_score * 100) 2
      spellingError := pyRound (0.1 * spelling_error_score / quality_score * 100) 2 })

/-- The contribution record that `evaluate_article_quality` builds at
`src/app.py` lines 124–130, expressed with the named sub-scores. -/
def contributions_of (known : String → Bool) (polarity : ℚ) (words : List String)
    (article : String) (gen : Bool) (kws : List String) : Contributions :=
  { readability :=
      pyRound (0.4 * polarity / quality_score known polarity words article gen kws * 100) 2
    vocabularyRichness :=
      pyRound (0.1 * vocabulary_score words / quality_score known polarity words article gen kws * 100) 2
    relevance :=
      pyRound (0.3 * relevance_score article kws / quality_score known polarity words article gen kws * 100) 2
    generatedByChatGPT :=
      pyRound (0.1 * effort_score gen / quality_score known polarity words article gen kws * 100) 2
    spellingError :=
      pyRound (0.1 * spelling_error_score known words / quality_score known polarity words article gen kws * 100) 2 }

/-! ## The fetcher (`get_article`, `src/app.py` lines 32–44)

The HTTP layer and the HTML parse are external collaborators; a response is
modelled by its status code together with the text contents of its `<p>`
elements in document order.  The cleaning pass `re.sub(r'<.*?>|\n|\t', '', s)`
is modelled by `stripTags`: scanning left to right, a `<` opens a tag that is
deleted up to the first following `>` provided no newline intervenes (`.`
does not match a newline), and bare newline and tab characters are deleted. -/

/-- An HTTP response as seen by `get_article`: the status code and the text
contents of the `<p>` elements of the body, in document order. -/
structure HttpResponse where
  status_code : ℕ
  paragraphs : List String

/-- After a `<`, the remainder of the input past the first `>`, if one
occurs before any newline; `none` if the candidate tag never closes. -/
def tagRest : List Char → Option (List Char)
  | [] => none
  | c :: cs =>
    if c = '>' then some cs
    else if c = '\n' then none
    else tagRest cs

theorem tagRest_length : ∀ {cs rest : List Char}, tagRest cs = some rest →
    rest.length < cs.length := by
  intro cs
  induction cs with
  | nil => intro rest h; simp [tagRest] at h
  | cons c cs ih =>
    intro rest h
    simp only [tagRest] at h
    by_cases hc : c = '>'
    · simp [hc] at h
      simp [← h, List.length_cons, Nat.lt_succ_self]
    · by_cases hn : c = '\n'
      · simp [hc, hn] at h
      · simp [hc, hn] at h
        exact Nat.lt_succ_of_lt (ih h)

/-- One left-to-right pass of `re.sub(r'<.*?>|\n|\t', '', s)`
(`src/app.py` line 40) over the character list of `s`. -/
def stripTags : List Char → List Char
  | [] => []
  | c :: cs =>
    if c = '<' then
      match h : tagRest cs with
      | some rest => stripTags rest
      | none => c :: stripTags cs
    else if c = '\n' ∨ c = '\t' then stripTags cs
    else c :: stripTags cs
termination_by cs => cs.length
decreasing_by
  · exact Nat.lt_succ_of_lt (tagRest_length h)
  · exact Nat.lt_succ_self _
  · exact Nat.lt_succ_self _
  · exact Nat.lt_succ_self _

/-- The result of `get_article` (`src/app.py` lines 32–44): either the
cleaned article text, or the Python sentinel `False` that the function
returns (after printing a message) when the status code is not 200. -/
inductive FetchResult where
  | article (text : String)
  | sentinelFalse
deriving DecidableEq

/-- `get_article` (`src/app.py` lines 32–44): on status 200, join the
paragraph texts with no separator and apply the cleaning pass; otherwise
return the sentinel `False`. -/
def get_article (response : HttpResponse) : FetchResult :=
  if response.status_code = 200 then
    let all_para := response.paragraphs
    let article_text := String.join all_para
    FetchResult.article (String.mk (stripTags article_text.data))
  else
    FetchResult.sentinelFalse

/-! ## Basic facts about the rounding model -/

theorem le_roundHalfEven (q : ℚ) : q - 1/2 ≤ (roundHalfEven q : ℚ) := by
  have h1 : (⌊q⌋ : ℚ) ≤ q := Int.floor_le q
  have h2 : q < ⌊q⌋ + 1 := Int.lt_floor_add_one q
  unfold roundHalfEven
  split_ifs <;> push_cast <;> linarith

theorem roundHalfEven_le (q : ℚ) : (roundHalfEven q : ℚ) ≤ q + 1/2 := by
  have h1 : (⌊q⌋ : ℚ) ≤ q := Int.floor_le q
  unfold roundHalfEven
  split_ifs <;> push_cast <;> linarith

theorem pyRound_zero (q : ℚ) : pyRound q 0 = (roundHalfEven q : ℚ) := by
  simp [pyRound]

/-! ## Characterisation of the scorer -/

/-- Under the two definedness conditions (a non-empty word list and a
non-empty keyword list), `evaluate_article_quality` is the zero test on the
composite quality score followed by the rescaled percentage and the five
contribution percentages. -/
theorem evaluate_article_quality_eq (known : String → Bool) (p : ℚ)
    (words : List String) (article : String) (gen : Bool) (kws : List String)
    (hw : words ≠ []) (hk : kws ≠ []) :
    evaluate_article_quality known p words article gen kws =
      if quality_score known p words article gen kws = 0 then none
      else some (pyRound ((quality_score known p words article gen kws + 1) * 50) 0,
        contributions_of known p words article gen kws) := by
  have h1 : ¬ words.length = 0 := by simpa [List.length_eq_zero] using hw
  have h2 : ¬ kws.length = 0 := by simpa [List.length_eq_zero] using hk
  simp only [evaluate_article_quality, h1, h2, if_false,
    contributions_of, quality_score, vocabulary_score, spelling_error_score,
    relevance_score, effort_score]

/-! ## Concrete evaluations shared by the witnesses -/

theorem helper_vocab_one : vocabulary_score ["a"] = 1 := by
  have h1 : (["a"] : List String).dedup.length = 1 := by decide
  have h2 : (["a"] : List String).length = 1 := by decide
  rw [vocabulary_score, h1, h2]; norm_num

theorem helper_spell_one : spelling_error_score (fun _ => true) ["a"] = 1 := by
  have h1 : (unknownWords (fun _ => true) ["a"]).length = 0 := by decide
  have h2 : (["a"] : List String).length = 1 := by decide
  rw [spelling_error_score, h1, h2]; norm_num

theorem helper_rel_one : relevance_score "a" ["a"] = 1 := by
  have h1 : (["a"] : List String).countP (keyword_occurs "a") = 1 := by decide
  have h2 : (["a"] : List String).length = 1 := by decide
  rw [relevance_score, h1, h2]; norm_num

theorem helper_qual_a (p : ℚ) (gen : Bool) :
    quality_score (fun _ => true) p ["a"] "a" gen ["a"]
      = 0.4 * p + 1/2 + 0.1 * effort_score gen := by
  rw [quality_score, helper_vocab_one, helper_spell_one, helper_rel_one]; ring

theorem helper_eval_p0_false :
    evaluate_article_quality (fun _ => true) 0 ["a"] "a" false ["a"]
      = some (80, ⟨0, 16.67, 50, 16.67, 16.67⟩) := by
  have hQ : quality_score (fun _ => true) 0 ["a"] "a" false ["a"] = 3/5 := by
    rw [helper_qual_a]; norm_num [effort_score]
  rw [evaluate_article_quality_eq _ _ _ _ _ _ (by decide) (by decide), hQ,
    if_neg (by norm_num), contributions_of, hQ, helper_vocab_one, helper_spell_one,
    helper_rel_one, effort_score]
  norm_num [pyRound, roundHalfEven]

theorem helper_eval_p0_true :
    evaluate_article_quality (fun _ => true) 0 ["a"] "a" true ["a"]
      = some (75, ⟨0, 20, 60, 0, 20⟩) := by
  have hQ : quality_score (fun _ => true) 0 ["a"] "a" true ["a"] = 1/2 := by
    rw [helper_qual_a]; norm_num [effort_score]
  rw [evaluate_article_quality_eq _ _ _ _ _ _ (by decide) (by decide), hQ,
    if_neg (by norm_num), contributions_of, hQ, helper_vocab_one, helper_spell_one,
    helper_rel_one, effort_score]
  norm_num [pyRound, roundHalfEven]

theorem helper_eval_p2_false :
    evaluate_article_quality (fun _ => true) 2 ["a"] "a" false ["a"]
      = some (120, ⟨57.14, 7.14, 21.43, 7.14, 7.14⟩) := by
  have hQ : quality_score (fun _ => true) 2 ["a"] "a" false ["a"] = 7/5 := by
    rw [helper_qual_a]; norm_num [effort_score]
  rw [evaluate_article_quality_eq _ _ _ _ _ _ (by decide) (by decide), hQ,
    if_neg (by norm_num), contributions_of, hQ, helper_vocab_one, helper_spell_one,
    helper_rel_one, effort_score]
  norm_num [pyRound, roundHalfEven]

/-! ## C1 -/

/-- C1: for every article text with at least one word (`words ≠ []`), every
boolean `is_generated` flag and every non-empty keyword list, the percentage
returned by `evaluate_article_quality` is computed from the composite quality
score `0.4*readability + 0.1*vocabulary + 0.3*relevance + 0.1*effort +
0.1*spelling_error`, where the five sub-scores are exactly those of the spec
§4.3 sub-score table. -/
theorem c1_composite_weighted_sum (known : String → Bool) (p : ℚ)
    (words : List String) (article : String) (gen : Bool) (kws : List String)
    (hw : words ≠ []) (hk : kws ≠ []) (pct : ℚ) (c : Contributions)
    (h : evaluate_article_quality known p words article gen kws = some (pct, c)) :
    pct = pyRound ((0.4 * p + 0.1 * vocabulary_score words
      + 0.3 * relevance_score article kws + 0.1 * effort_score gen
      + 0.1 * spelling_error_score known words + 1) * 50) 0 := by
  rw [evaluate_article_quality_eq known p words article gen kws hw hk] at h
  by_cases hq : quality_score known p words article gen kws = 0
  · simp [hq] at h
  · rw [if_neg hq] at h
    have h1 : pyRound ((quality_score known p words article gen kws + 1) * 50) 0 = pct := by
      simpa using congrArg (fun o => o.map Prod.fst) h
    rw [← h1, quality_score]

/-- C1 witness: a concrete run.  With one known, on-topic word and
`is_generated = false`, every sub-score except readability is 1, the
composite is 0.6, and the returned percentage is 80. -/
theorem c1_composite_weighted_sum_witness :
    evaluate_article_quality (fun _ => true) 0 ["a"] "a" false ["a"]
      = some (80, ⟨0, 16.67, 50, 16.67, 16.67⟩) ∧
    (80 : ℚ) = pyRound ((0.4 * 0 + 0.1 * vocabulary_score ["a"]
      + 0.3 * relevance_score "a" ["a"] + 0.1 * effort_score false
      + 0.1 * spelling_error_score (fun _ => true) ["a"] + 1) * 50) 0 :=
  ⟨helper_eval_p0_false,
    c1_composite_weighted_sum (fun _ => true) 0 ["a"] "a" false ["a"]
      (by decide) (by decide) 80 ⟨0, 16.67, 50, 16.67, 16.67⟩ helper_eval_p0_false⟩

/-! ## C2 -/

/-- C2 as frozen is refuted on the embedded scorer: with readability
(TextBlob polarity) `81/80`, one known on-topic word and
`is_generated = false`, the composite quality score is `201/200`, which lies
outside `[-1, 1]`, yet the returned percentage is `round(100.25) = 100`,
which lies inside `[0, 100]`: rounding absorbs an overshoot of up to `0.01`
in the quality score. -/
theorem c2_claim_counterexample :
    1 < quality_score (fun _ => true) (81/80) ["a"] "a" false ["a"] ∧
    (evaluate_article_quality (fun _ => true) (81/80) ["a"] "a" false ["a"]).map Prod.fst
      = some 100 := by
  have hQ : quality_score (fun _ => true) (81/80) ["a"] "a" false ["a"] = 201/200 := by
    rw [helper_qual_a]; norm_num [effort_score]
  constructor
  · rw [hQ]; norm_num
  · rw [evaluate_article_quality_eq _ _ _ _ _ _ (by decide) (by decide), hQ,
      if_neg (by norm_num)]
    simp only [Option.map_some', Prod.fst]
    norm_num [pyRound, roundHalfEven]

/-- C2 (amended): the final percentage returned by
`evaluate_article_quality` equals `round((quality + 1) * 50)` with no
clamping applied afterwards; whenever the composite quality score exceeds
`1.01` the returned percentage exceeds 100, and whenever it is below
`-1.01` the returned percentage is negative (for a quality score within
`0.01` of `[-1, 1]`, rounding can still return a value inside `[0, 100]`). -/
theorem c2_percentage_round_no_clamp (known : String → Bool) (p : ℚ)
    (words : List String) (article : String) (gen : Bool) (kws : List String)
    (hw : words ≠ []) (hk : kws ≠ []) (pct : ℚ) (c : Contributions)
    (h : evaluate_article_quality known p words article gen kws = some (pct, c)) :
    pct = pyRound ((quality_score known p words article gen kws + 1) * 50) 0 ∧
    (101/100 < quality_score known p words article gen kws → 100 < pct) ∧
    (quality_score known p words article gen kws < -(101/100) → pct < 0) := by
  rw [evaluate_article_quality_eq known p words article gen kws hw hk] at h
  by_cases hq : quality_score known p words article gen kws = 0
  · simp [hq] at h
  · rw [if_neg hq] at h
    have h1 : pyRound ((quality_score known p words article gen kws + 1) * 50) 0 = pct := by
      simpa using congrArg (fun o => o.map Prod.fst) h
    refine ⟨h1.symm, ?_, ?_⟩
    · intro hgt
      rw [← h1, pyRound_zero]
      have := le_roundHalfEven ((quality_score known p words article gen kws + 1) * 50)
      linarith
    · intro hlt
      rw [← h1, pyRound_zero]
      have := roundHalfEven_le ((quality_score known p words article gen kws + 1) * 50)
      linarith

/-- C2 witness: with readability 2 the composite is `1.4 > 1.01` and the
returned percentage is `120 > 100`. -/
theorem c2_percentage_round_no_clamp_witness :
    evaluate_article_quality (fun _ => true) 2 ["a"] "a" false ["a"]
      = some (120, ⟨57.14, 7.14, 21.43, 7.14, 7.14⟩) ∧ (100 : ℚ) < 120 := by
  refine ⟨helper_eval_p2_false, ?_⟩
  refine (c2_percentage_round_no_clamp (fun _ => true) 2 ["a"] "a" false ["a"]
    (by decide) (by decide) 120 ⟨57.14, 7.14, 21.43, 7.14, 7.14⟩
    helper_eval_p2_false).2.1 ?_
  rw [helper_qual_a]; norm_num [effort_score]

/-! ## C3 -/

/-- C3: under the definedness conditions, when the composite quality score
is non-zero each contribution percentage equals
`round(weight_i * subscore_i / quality * 100, 2)`, dividing by the unscaled
quality score; and when the composite quality score is zero,
`evaluate_article_quality` fails (modelled by `none`) instead of returning a
result. -/
theorem c3_contributions_and_zero_quality (known : String → Bool) (p : ℚ)
    (words : List String) (article : String) (gen : Bool) (kws : List String)
    (hw : words ≠ []) (hk : kws ≠ []) :
    (quality_score known p words article gen kws ≠ 0 →
      evaluate_article_quality known p words article gen kws =
        some (pyRound ((quality_score known p words article gen kws + 1) * 50) 0,
          { readability :=
              pyRound (0.4 * p / quality_score known p words article gen kws * 100) 2
            vocabularyRichness :=
              pyRound (0.1 * vocabulary_score words / quality_score known p words article gen kws * 100) 2
            relevance :=
              pyRound (0.3 * relevance_score article kws / quality_score known p words article gen kws * 100) 2
            generatedByChatGPT :=
              pyRound (0.1 * effort_score gen / quality_score known p words article gen kws * 100) 2
            spellingError :=
              pyRound (0.1 * spelling_error_score known words / quality_score known p words article gen kws * 100) 2 })) ∧
    (quality_score known p words article gen kws = 0 →
      evaluate_article_quality known p words article gen kws = none) := by
  rw [evaluate_article_quality_eq known p words article gen kws hw hk]
  constructor
  · intro hq; rw [if_neg hq]; rfl
  · intro hq; rw [if_pos hq]

/-- C3 witness: with readability `-1/2`, a known word, an off-topic keyword
and `is_generated = true`, the composite quality score is zero and the
scorer fails; at a non-zero composite it returns a result. -/
theorem c3_contributions_and_zero_quality_witness :
    evaluate_article_quality (fun _ => true) (-(1/2)) ["a"] "z" true ["q"] = none ∧
    evaluate_article_quality (fun _ => true) 0 ["a"] "a" false ["a"] ≠ none := by
  have hr : relevance_score "z" ["q"] = 0 := by
    have h1 : (["q"] : List String).countP (keyword_occurs "z") = 0 := by decide
    rw [relevance_score, h1]; norm_num
  have h0 : quality_score (fun _ => true) (-(1/2)) ["a"] "z" true ["q"] = 0 := by
    rw [quality_score, helper_vocab_one, helper_spell_one, hr, effort_score]; norm_num
  refine ⟨(c3_contributions_and_zero_quality (fun _ => true) (-(1/2)) ["a"] "z" true ["q"]
    (by decide) (by decide)).2 h0, ?_⟩
  have hne : quality_score (fun _ => true) 0 ["a"] "a" false ["a"] ≠ 0 := by
    rw [helper_qual_a]; norm_num [effort_score]
  rw [(c3_contributions_and_zero_quality (fun _ => true) 0 ["a"] "a" false ["a"]
    (by decide) (by decide)).1 hne]
  simp

/-! ## C4 -/

/-- C4: holding every other input fixed, the percentage returned with
`is_generated = false` is at least the percentage returned with
`is_generated = true`, because the effort sub-score is 1 exactly when the
flag is false and 0 exactly when it is true. -/
theorem c4_not_generated_geq (known : String → Bool) (p : ℚ) (words : List String)
    (article : String) (kws : List String) (hw : words ≠ []) (hk : kws ≠ [])
    (pf pt : ℚ) (cf ct : Contributions)
    (hf : evaluate_article_quality known p words article false kws = some (pf, cf))
    (ht : evaluate_article_quality known p words article true kws = some (pt, ct)) :
    effort_score false = 1 ∧ effort_score true = 0 ∧ pt ≤ pf := by
  refine ⟨rfl, rfl, ?_⟩
  rw [evaluate_article_quality_eq known p words article false kws hw hk] at hf
  rw [evaluate_article_quality_eq known p words article true kws hw hk] at ht
  by_cases hqf : quality_score known p words article false kws = 0
  · simp [hqf] at hf
  by_cases hqt : quality_score known p words article true kws = 0
  · simp [hqt] at ht
  rw [if_neg hqf] at hf
  rw [if_neg hqt] at ht
  have h1 : pyRound ((quality_score known p words article false kws + 1) * 50) 0 = pf := by
    simpa using congrArg (fun o => o.map Prod.fst) hf
  have h2 : pyRound ((quality_score known p words article true kws + 1) * 50) 0 = pt := by
    simpa using congrArg (fun o => o.map Prod.fst) ht
  have hdiff : quality_score known p words article false kws
      = quality_score known p words article true kws + 1/10 := by
    rw [quality_score, quality_score, effort_score, effort_score]
    norm_num
    ring
  rw [← h1, ← h2, pyRound_zero, pyRound_zero, hdiff]
  have ha := le_roundHalfEven ((quality_score known p words article true kws + 1/10 + 1) * 50)
  have hb := roundHalfEven_le ((quality_score known p words article true kws + 1) * 50)
  linarith

/-- C4 witness: at readability 0 the same article scores 80 when
`is_generated = false` and 75 when `is_generated = true`. -/
theorem c4_not_generated_geq_witness :
    evaluate_article_quality (fun _ => true) 0 ["a"] "a" false ["a"]
      = some (80, ⟨0, 16.67, 50, 16.67, 16.67⟩) ∧
    evaluate_article_quality (fun _ => true) 0 ["a"] "a" true ["a"]
      = some (75, ⟨0, 20, 60, 0, 20⟩) ∧
    (75 : ℚ) ≤ 80 :=
  ⟨helper_eval_p0_false, helper_eval_p0_true,
    (c4_not_generated_geq (fun _ => true) 0 ["a"] "a" ["a"] (by decide) (by decide)
      80 75 ⟨0, 16.67, 50, 16.67, 16.67⟩ ⟨0, 20, 60, 0, 20⟩
      helper_eval_p0_false helper_eval_p0_true).2.2⟩

/-! ## The substring test agrees with contiguous-substring occurrence -/

theorem isPrefixOf_iff_append : ∀ n h : List Char, n.isPrefixOf h = true ↔ ∃ t, n ++ t = h := by
  intro n
  induction n with
  | nil => intro h; simp [List.isPrefixOf]
  | cons a as ih =>
    intro h
    cases h with
    | nil => simp [List.isPrefixOf]
    | cons b bs =>
      simp only [List.isPrefixOf, Bool.and_eq_true, beq_iff_eq, ih bs]
      constructor
      · rintro ⟨rfl, t, rfl⟩
        exact ⟨t, rfl⟩
      · rintro ⟨t, ht⟩
        rw [List.cons_append] at ht
        obtain ⟨h1, h2⟩ := List.cons.injEq a (as ++ t) b bs ▸ ht
        exact ⟨h1, t, h2⟩

theorem isSubstrList_iff (needle hay : List Char) :
    isSubstrList needle hay = true ↔ IsSubstr needle hay := by
  induction hay with
  | nil =>
    simp only [isSubstrList, List.isEmpty_iff, IsSubstr]
    constructor
    · rintro rfl; exact ⟨[], [], rfl⟩
    · rintro ⟨pre, post, h⟩
      rcases List.append_eq_nil.mp (List.append_eq_nil.mp h.symm).1 with ⟨-, h2⟩
      exact h2
  | cons c cs ih =>
    simp only [isSubstrList, Bool.or_eq_true, ih, isPrefixOf_iff_append, IsSubstr]
    constructor
    · rintro (⟨t, ht⟩ | ⟨pre, post, rfl⟩)
      · exact ⟨[], t, by simp [ht]⟩
      · exact ⟨c :: pre, post, by simp⟩
    · rintro ⟨pre, post, h⟩
      cases pre with
      | nil =>
        left
        exact ⟨post, by simpa using h.symm⟩
      | cons x xs =>
        right
        simp only [List.cons_append, List.cons.injEq] at h
        exact ⟨xs, post, h.2⟩

/-! ## C5 -/

/-- C5: for every article text and non-empty keyword list the relevance
sub-score is the fraction of keywords whose lowercased form occurs as a
contiguous substring of the lowercased article; it is 1 when every keyword
so occurs, 0 when none does, and it always lies in `[0, 1]`. -/
theorem c5_relevance_fraction (article : String) (kws : List String) (hk : kws ≠ []) :
    relevance_score article kws
      = (kws.countP (keyword_occurs article) : ℚ) / (kws.length : ℚ) ∧
    (0 ≤ relevance_score article kws ∧ relevance_score article kws ≤ 1) ∧
    ((∀ kw ∈ kws, IsSubstr (lowerStr kw).data (lowerStr article).data) →
      relevance_score article kws = 1) ∧
    ((∀ kw ∈ kws, ¬ IsSubstr (lowerStr kw).data (lowerStr article).data) →
      relevance_score article kws = 0) := by
  have hl : 0 < kws.length := List.length_pos.mpr hk
  have hlq : (0 : ℚ) < (kws.length : ℚ) := by exact_mod_cast hl
  refine ⟨rfl, ⟨?_, ?_⟩, ?_, ?_⟩
  · exact div_nonneg (Nat.cast_nonneg _) (Nat.cast_nonneg _)
  · rw [relevance_score, div_le_one hlq]
    exact_mod_cast List.countP_le_length _
  · intro hall
    have hcnt : kws.countP (keyword_occurs article) = kws.length :=
      List.countP_eq_length.mpr fun kw hm => (isSubstrList_iff _ _).mpr (hall kw hm)
    rw [relevance_score, hcnt, div_self (ne_of_gt hlq)]
  · intro hnone
    have hcnt : kws.countP (keyword_occurs article) = 0 :=
      List.countP_eq_zero.mpr fun kw hm h =>
        hnone kw hm ((isSubstrList_iff _ _).mp h)
    rw [relevance_score, hcnt]
    norm_num

/-- C5 witness: the spec §8 example — `"Good plan for success exam 2023"`
with keywords `["exam", "2023", "missing"]` has relevance `2/3`, inside
`[0, 1]`. -/
theorem c5_relevance_fraction_witness :
    relevance_score "Good plan for success exam 2023" ["exam", "2023", "missing"] = 2/3 ∧
    0 ≤ relevance_score "Good plan for success exam 2023" ["exam", "2023", "missing"] ∧
    relevance_score "Good plan for success exam 2023" ["exam", "2023", "missing"] ≤ 1 := by
  have hb := (c5_relevance_fraction "Good plan for success exam 2023"
    ["exam", "2023", "missing"] (by decide)).2.1
  refine ⟨?_, hb.1, hb.2⟩
  have h1 : (["exam", "2023", "missing"] : List String).countP
      (keyword_occurs "Good plan for success exam 2023") = 2 := by decide
  have h2 : (["exam", "2023", "missing"] : List String).length = 3 := by decide
  rw [relevance_score, h1, h2]
  norm_num

/-! ## C6 -/

/-- C6: for every non-empty word list the vocabulary sub-score
(unique word count over total word count) is defined and lies in `(0, 1]`. -/
theorem c6_vocabulary_range (words : List String) (hw : words ≠ []) :
    0 < vocabulary_score words ∧ vocabulary_score words ≤ 1 := by
  have hl : 0 < words.length := List.length_pos.mpr hw
  have hlq : (0 : ℚ) < (words.length : ℚ) := by exact_mod_cast hl
  have hd : 0 < words.dedup.length :=
    List.length_pos.mpr (by simpa [List.dedup_eq_nil] using hw)
  have hle : words.dedup.length ≤ words.length := (List.dedup_sublist words).length_le
  constructor
  · rw [vocabulary_score]
    exact div_pos (by exact_mod_cast hd) hlq
  · rw [vocabulary_score, div_le_one hlq]
    exact_mod_cast hle

/-- C6 witness: `["a", "b", "a"]` has vocabulary score `2/3 ∈ (0, 1]`. -/
theorem c6_vocabulary_range_witness :
    (0 < vocabulary_score ["a", "b", "a"] ∧ vocabulary_score ["a", "b", "a"] ≤ 1) ∧
    vocabulary_score ["a", "b", "a"] = 2/3 := by
  refine ⟨c6_vocabulary_range ["a", "b", "a"] (by decide), ?_⟩
  have h1 : (["a", "b", "a"] : List String).dedup.length = 2 := by decide
  have h2 : (["a", "b", "a"] : List String).length = 3 := by decide
  rw [vocabulary_score, h1, h2]
  norm_num

/-! ## C9 -/

/-- C9: for every word list with at least one word, the misspelled words
form a subset of the article's distinct (lowercased) words, so the
misspelled count never exceeds the total word count and the spelling-error
sub-score `1 - misspelled/total` lies in `[0, 1]` — it is never negative,
contrary to the spec's range note. -/
theorem c9_spelling_range (known : String → Bool) (words : List String)
    (hw : words ≠ []) :
    (unknownWords known words).length ≤ words.length ∧
    0 ≤ spelling_error_score known words ∧ spelling_error_score known words ≤ 1 := by
  have hl : 0 < words.length := List.length_pos.mpr hw
  have hlq : (0 : ℚ) < (words.length : ℚ) := by exact_mod_cast hl
  have hsub : (unknownWords known words).length ≤ words.length := by
    simp only [unknownWords]
    calc ((words.map lowerStr).filter fun w => !known w).dedup.length
        ≤ ((words.map lowerStr).filter fun w => !known w).length :=
          (List.dedup_sublist _).length_le
      _ ≤ (words.map lowerStr).length := List.length_filter_le _ _
      _ = words.length := List.length_map _ _
  have hq : ((unknownWords known words).length : ℚ) / (words.length : ℚ) ≤ 1 := by
    rw [div_le_one hlq]
    exact_mod_cast hsub
  have hq0 : 0 ≤ ((unknownWords known words).length : ℚ) / (words.length : ℚ) :=
    div_nonneg (Nat.cast_nonneg _) (Nat.cast_nonneg _)
  refine ⟨hsub, ?_, ?_⟩
  · rw [spelling_error_score]; linarith
  · rw [spelling_error_score]; linarith

/-- C9 witness: with a dictionary knowing only `"a"`, the words
`["a", "b"]` have one misspelling and spelling-error score `1/2 ∈ [0, 1]`. -/
theorem c9_spelling_range_witness :
    ((unknownWords (fun w => w == "a") ["a", "b"]).length ≤ (["a", "b"] : List String).length ∧
      0 ≤ spelling_error_score (fun w => w == "a") ["a", "b"] ∧
      spelling_error_score (fun w => w == "a") ["a", "b"] ≤ 1) ∧
    spelling_error_score (fun w => w == "a") ["a", "b"] = 1/2 := by
  refine ⟨c9_spelling_range (fun w => w == "a") ["a", "b"] (by decide), ?_⟩
  have h1 : (unknownWords (fun w => w == "a") ["a", "b"]).length = 1 := by decide
  have h2 : (["a", "b"] : List String).length = 2 := by decide
  rw [spelling_error_score, h1, h2]
  norm_num

/-! ## C10 -/

/-- C10: an empty-string keyword is always counted as present by the
relevance computation (the empty string is a substring of every string), so
a non-empty keyword list consisting only of empty strings yields relevance
1 regardless of the article. -/
theorem c10_empty_keyword (article : String) (kws : List String) (hk : kws ≠ [])
    (hall : ∀ kw ∈ kws, kw = "") :
    keyword_occurs article "" = true ∧ relevance_score article kws = 1 := by
  have hocc : keyword_occurs article "" = true := by
    show isSubstrList (lowerStr "").data (lowerStr article).data = true
    exact (isSubstrList_iff _ _).mpr ⟨[], (lowerStr article).data, by simp [lowerStr]⟩
  refine ⟨hocc, ?_⟩
  have hcnt : kws.countP (keyword_occurs article) = kws.length :=
    List.countP_eq_length.mpr fun kw hm => by rw [hall kw hm]; exact hocc
  have hlq : (0 : ℚ) < (kws.length : ℚ) := by
    exact_mod_cast List.length_pos.mpr hk
  rw [relevance_score, hcnt, div_self (ne_of_gt hlq)]

/-- C10 witness: a keyword list of two empty strings scores relevance 1 on
the article `"xyz"`. -/
theorem c10_empty_keyword_witness :
    keyword_occurs "xyz" "" = true ∧ relevance_score "xyz" ["", ""] = 1 :=
  c10_empty_keyword "xyz" ["", ""] (by decide) (by decide)

/-! ## Facts about the cleaning pass -/

/-- The cleaning pass removes every newline and tab character. -/
theorem stripTags_no_ctl (cs : List Char) :
    ∀ ch ∈ stripTags cs, ch ≠ '\n' ∧ ch ≠ '\t' := by
  induction cs using stripTags.induct with
  | case1 => rw [stripTags]; simp
  | case2 cs rest hr ih =>
    rw [stripTags]
    simp only [reduceIte]
    split
    · rename_i rest' hr'
      rw [hr] at hr'
      injection hr' with he
      subst he
      exact ih
    · rename_i hr'
      rw [hr] at hr'
      simp at hr'
  | case3 cs hr ih =>
    rw [stripTags]
    simp only [reduceIte]
    split
    · rename_i rest' hr'
      rw [hr] at hr'
      simp at hr'
    · intro ch hm
      rcases List.mem_cons.mp hm with rfl | hm'
      · exact ⟨by decide, by decide⟩
      · exact ih ch hm'
  | case4 c cs hc hnt ih =>
    rw [stripTags, if_neg hc, if_pos hnt]
    exact ih
  | case5 c cs hc hnt ih =>
    rw [stripTags, if_neg hc, if_neg hnt]
    intro ch hm
    rcases List.mem_cons.mp hm with rfl | hm'
    · push_neg at hnt
      exact hnt
    · exact ih ch hm'

/-- On text containing no `<`, newline or tab, the cleaning pass is the
identity. -/
theorem stripTags_plain (cs : List Char)
    (h : ∀ c ∈ cs, c ≠ '<' ∧ c ≠ '\n' ∧ c ≠ '\t') : stripTags cs = cs := by
  induction cs with
  | nil => rw [stripTags]
  | cons c cs ih =>
    obtain ⟨h1, h2, h3⟩ := h c (List.mem_cons_self c cs)
    rw [stripTags, if_neg h1, if_neg (by simp [h2, h3])]
    rw [ih fun x hx => h x (List.mem_cons_of_mem _ hx)]

/-! ## C7 -/

/-- C7 evaluated at the failing input: on an HTTP 404 response (whatever
the body holds), `get_article` does not fail with a fetch error carrying
the status code — no such error value exists in the code — but returns the
Python sentinel `False`, contradicting the claim that it never returns a
sentinel article value.  The same happens for any non-200 status. -/
theorem c7_get_article_404_sentinel :
    get_article ⟨404, ["partial"]⟩ = FetchResult.sentinelFalse ∧
    get_article ⟨500, ["x"]⟩ = FetchResult.sentinelFalse :=
  ⟨rfl, rfl⟩

/-! ## C8 -/

/-- C8: on every response with status 200, `get_article` returns the
paragraph texts concatenated in document order with no separator and passed
through the cleaning pass, and the result contains no newline and no tab
character; an empty paragraph list yields the empty string (see the
witness), not an error. -/
theorem c8_get_article_success (resp : HttpResponse) (h : resp.status_code = 200) :
    get_article resp
      = FetchResult.article (String.mk (stripTags (String.join resp.paragraphs).data)) ∧
    ∀ ch ∈ stripTags (String.join resp.paragraphs).data, ch ≠ '\n' ∧ ch ≠ '\t' := by
  refine ⟨?_, stripTags_no_ctl _⟩
  simp only [get_article, h, if_true]

/-- C8 witness: paragraphs `["A", "B"]` yield the article `"AB"` (no
separator), and an empty paragraph list yields `""` rather than an error. -/
theorem c8_get_article_success_witness :
    get_article ⟨200, ["A", "B"]⟩ = FetchResult.article "AB" ∧
    get_article ⟨200, []⟩ = FetchResult.article "" := by
  have h1 := (c8_get_article_success ⟨200, ["A", "B"]⟩ rfl).1
  have h2 := (c8_get_article_success ⟨200, []⟩ rfl).1
  rw [h1, h2]
  constructor
  · rw [show String.join ["A", "B"] = "AB" from rfl,
      stripTags_plain _ (by decide)]
  · rw [show String.join [] = "" from rfl,
      stripTags_plain _ (by decide)]

end ContentQC
